import Mathlib

/-!
Shallow embedding of the pairwise-chat core:
`src/chatroom.py` (ChatService), `src/websocket_chat.py` (the per-connection
session class), and `src/kafka.py` (KafkaService).

The database session is modelled as an explicit `DB` value threaded through
the operations; SQLAlchemy queries become `List.find?` / `List.filter` over
the stored rows in insertion order (`.first()` is the first match), and
`commit` becomes the returned updated `DB`.  Python exceptions are modelled
with `Except PyErr`.  External collaborators that are part of this repository
but absent from `src/` (UserService, MessageService) are modelled from the
spec, and each such definition says so in its doc comment.
-/

/-- A user row: only the fields the three source files read (`id`, `nickname`). -/
structure User where
  id : Nat
  nickname : String
deriving Repr, DecidableEq

/-- A persisted chat room row (`ChatRoom` model): numeric id, canonical
`room_name`, member list, and the mutable `active` flag. -/
structure ChatRoom where
  id : Nat
  room_name : String
  users : List User
  active : Bool
deriving Repr, DecidableEq

/-- JSON scalar appearing in inbound action payloads: Python `msg["content"]`
may be a string (message text) or a number (message id for DELETE). -/
inductive JVal where
  | s : String → JVal
  | n : Nat → JVal
deriving Repr, DecidableEq

/-- A persisted chat message row: id, text content, parent room, author. -/
structure ChatMessage where
  id : Nat
  context : JVal
  room_id : Nat
  author_id : Nat
deriving Repr, DecidableEq

/-- The `MessageCreate` schema passed to `MessageService.create_message`. -/
structure MessageCreate where
  context : JVal
  room_id : Nat
  author_id : Nat
deriving Repr, DecidableEq

/-- The database state: user, room and message tables plus autoincrement
counters for freshly assigned ids. -/
structure DB where
  users : List User
  rooms : List ChatRoom
  messages : List ChatMessage
  nextRoomId : Nat
  nextMessageId : Nat
deriving Repr, DecidableEq

/-- Python exceptions raised by the embedded code. -/
inductive PyErr where
  | notFound (what : String)
  | valueError
  | attributeError
  | runtimeError (msg : String)
  | storeFailure
deriving Repr, DecidableEq

deriving instance DecidableEq for Except

/-- Python `str.split(sep)` for a one-character separator, over the character
list of the string. -/
def pySplitChar (sep : Char) : List Char → List (List Char)
  | [] => [[]]
  | c :: rest =>
    if c = sep then [] :: pySplitChar sep rest
    else
      match pySplitChar sep rest with
      | [] => [[c]]
      | t :: ts => (c :: t) :: ts

/-- Python `s.split(sep)` for a one-character separator. -/
def pySplit (s : String) (sep : Char) : List String :=
  (pySplitChar sep s.data).map (fun cs => String.mk cs)

/-- Modelled from the spec: `UserService.get_user_by_field` is not under
`src/`; section 4.1 says the peer lookup "fails with NotFoundError if
unknown".  Returns the first user whose `nickname` field equals `data`. -/
def UserService.get_user_by_field (db : DB) (data : String) : Except PyErr User :=
  match db.users.find? (fun u => u.nickname == data) with
  | some u => .ok u
  | none => .error (.notFound "User")

/-- Modelled from the spec: `UserService.get_user_by_nickname` is not under
`src/`; `insert_room` checks its result for falsiness itself, so it returns
the user or `none`. -/
def UserService.get_user_by_nickname (db : DB) (nickname : String) : Option User :=
  db.users.find? (fun u => u.nickname == nickname)

/-- Modelled from the spec: `MessageService.create_message` is not under
`src/`; it persists a new message (content, room id, author id) and may fail
with a store failure (section 7), modelled by the `storeOk` flag. -/
def MessageService.create_message (db : DB) (mc : MessageCreate) (storeOk : Bool) :
    Except PyErr (ChatMessage × DB) :=
  if storeOk then
    let m : ChatMessage :=
      { id := db.nextMessageId, context := mc.context,
        room_id := mc.room_id, author_id := mc.author_id }
    .ok (m, { db with messages := db.messages ++ [m],
                      nextMessageId := db.nextMessageId + 1 })
  else
    .error .storeFailure

/-- Modelled from the spec: `MessageService.delete_message` is not under
`src/`; section 4.2 says DELETE removes the message by id and fails with
`NotFoundError` if absent.  The id argument is the raw `msg["content"]`
value, so a non-numeric content matches no row. -/
def MessageService.delete_message (db : DB) (message_id : JVal) : Except PyErr DB :=
  match message_id with
  | .n k =>
    if db.messages.any (fun m => m.id == k) then
      .ok { db with messages := db.messages.filter (fun m => m.id != k) }
    else
      .error (.notFound "Message")
  | .s _ => .error (.notFound "Message")

/-- Modelled from the spec: `MessageService.update_message` is not under
`src/`; section 4.2 says UPDATE locates the message by id (`NotFoundError`
if absent) and applies the new content. -/
def MessageService.update_message (db : DB) (message_id : Nat) (content : JVal) :
    Except PyErr (ChatMessage × DB) :=
  match db.messages.find? (fun m => m.id == message_id) with
  | some m =>
    let m1 : ChatMessage := { m with context := content }
    let msgs1 := db.messages.map (fun x => if x.id == message_id then m1 else x)
    .ok (m1, { db with messages := msgs1 })
  | none => .error (.notFound "Message")

/-- Modelled from the spec: `MessageService.get_all_messages_in_room` is not
under `src/`; it returns the room's messages in creation order. -/
def MessageService.get_all_messages_in_room (db : DB) (room_id : Nat) : List ChatMessage :=
  db.messages.filter (fun m => m.room_id == room_id)

/-- `ChatService._extract_nickname`: split the canonical `room_name` on the
separator, remove the viewer's nickname (Python `list.remove` drops the first
occurrence and raises `ValueError` when absent), and join what remains. -/
def ChatService._extract_nickname (room_db : ChatRoom) (current_user : User) :
    Except PyErr ChatRoom :=
  let friend_name := pySplit room_db.room_name '|'
  if friend_name.contains current_user.nickname then
    .ok { room_db with room_name := String.join (friend_name.erase current_user.nickname) }
  else
    .error .valueError

/-- `ChatService.get_room_by_nickname`: first room having some member with
the given nickname and some member with the current user's nickname. -/
def ChatService.get_room_by_nickname (db : DB) (current_user : User) (nickname : String) :
    Option ChatRoom :=
  db.rooms.find? (fun r =>
    r.users.any (fun u => u.nickname == nickname) &&
    r.users.any (fun u => u.nickname == current_user.nickname))

/-- `ChatService.get_room_by_id`: fetch by id; when a `current_user` is
supplied the query additionally requires that user to be a member.  When a
room is found, a supplied user and `filter_result = true` apply
`_extract_nickname` (whose `ValueError` propagates); a missing room raises
`NotFoundError("Chat")`. -/
def ChatService.get_room_by_id (db : DB) (room_id : Nat) (current_user : Option User)
    (filter_result : Bool) : Except PyErr ChatRoom :=
  match current_user with
  | some cu =>
    match db.rooms.find? (fun r =>
        r.users.any (fun u => u.id == cu.id) && r.id == room_id) with
    | some r => if filter_result then ChatService._extract_nickname r cu else .ok r
    | none => .error (.notFound "Chat")
  | none =>
    match db.rooms.find? (fun r => r.id == room_id) with
    | some r => .ok r
    | none => .error (.notFound "Chat")

/-- `ChatService.get_or_create_room`: look up the peer (NotFoundError if
unknown), return the first existing room for the pair unchanged, else insert
a room named `"<requester>|<peer>"` with the fresh autoincrement id, commit,
and re-fetch it with `filter_result = False`. -/
def ChatService.get_or_create_room (db : DB) (current_user : User)
    (other_user_nickname : String) : Except PyErr (ChatRoom × DB) :=
  match UserService.get_user_by_field db other_user_nickname with
  | .error e => .error e
  | .ok user_db =>
    match ChatService.get_room_by_nickname db current_user other_user_nickname with
    | some room_db => .ok (room_db, db)
    | none =>
      let room : ChatRoom :=
        { id := db.nextRoomId,
          room_name := current_user.nickname ++ "|" ++ other_user_nickname,
          users := [user_db, current_user],
          active := true }
      let db1 : DB := { db with rooms := db.rooms ++ [room],
                                nextRoomId := db.nextRoomId + 1 }
      match ChatService.get_room_by_id db1 room.id (some current_user) false with
      | .error e => .error e
      | .ok room1 => .ok (room1, db1)

/-- `ChatService.insert_room`: like `get_or_create_room` but the user lookup
returns `None` for an unknown nickname (then `NotFoundError("User")` is
raised here), and on the found-existing branch `_extract_nickname` is applied
to the returned room.  The in-place mutation of the ORM object's `room_name`
is not committed, so the stored table is unchanged on that branch. -/
def ChatService.insert_room (db : DB) (current_user : User) (nickname : String) :
    Except PyErr (ChatRoom × DB) :=
  match UserService.get_user_by_nickname db nickname with
  | none => .error (.notFound "User")
  | some user_db_1 =>
    match ChatService.get_room_by_nickname db current_user nickname with
    | some room_db =>
      match ChatService._extract_nickname room_db current_user with
      | .error e => .error e
      | .ok room1 => .ok (room1, db)
    | none =>
      let room : ChatRoom :=
        { id := db.nextRoomId,
          room_name := current_user.nickname ++ "|" ++ nickname,
          users := [user_db_1, current_user],
          active := true }
      let db1 : DB := { db with rooms := db.rooms ++ [room],
                                nextRoomId := db.nextRoomId + 1 }
      match ChatService.get_room_by_id db1 room.id (some current_user) false with
      | .error e => .error e
      | .ok room1 => .ok (room1, db1)

/-- `ChatService.set_room_activity`: fetch the room (the Python
`return None` branch for a missing room is unreachable, because
`get_room_by_id` raises `NotFoundError` instead of returning `None`), then
try to update the `active` flag; a failing update/commit is caught and only
logged (modelled by `storeOk = false` leaving the table unchanged); finally
re-fetch and return the current room. -/
def ChatService.set_room_activity (db : DB) (room_id : Nat) (activity_bool : Bool)
    (storeOk : Bool) : Except PyErr (ChatRoom × DB) :=
  match ChatService.get_room_by_id db room_id none true with
  | .error e => .error e
  | .ok _room_db =>
    let db1 : DB :=
      if storeOk then
        { db with rooms := db.rooms.map (fun r =>
            if r.id == room_id then { r with active := activity_bool } else r) }
      else db
    match ChatService.get_room_by_id db1 room_id none true with
    | .error e => .error e
    | .ok room1 => .ok (room1, db1)

/-- Result of `ChatService.upload_message_to_room`, whose Python return type
is `Union[ChatMessage, bool]`: the created message, or the literal `False`. -/
inductive UploadResult where
  | msg (m : ChatMessage)
  | boolFalse
deriving Repr, DecidableEq

/-- `ChatService.upload_message_to_room`: create the message via
`MessageService.create_message`; any exception inside the `try` (including
the `AttributeError` from `room_db.id` when the session's room is `None`) is
caught, logged, and converted to the return value `False`. -/
def ChatService.upload_message_to_room (db : DB) (current_user : User)
    (room_db : Option ChatRoom) (message_content : JVal) (storeOk : Bool) :
    UploadResult × DB :=
  match room_db with
  | none => (.boolFalse, db)
  | some r =>
    match MessageService.create_message db
        { context := message_content, room_id := r.id, author_id := current_user.id }
        storeOk with
    | .ok (m, db1) => (.msg m, db1)
    | .error _ => (.boolFalse, db)

/-- Python `list.remove` of an ORM user object: within one session the
identity map guarantees the stored member object with the user's id is the
very object passed, so removal drops the first member with that id. -/
def eraseUserById (users : List User) (uid : Nat) : List User :=
  match users with
  | [] => []
  | u :: rest => if u.id == uid then rest else u :: eraseUserById rest uid

/-- `ChatService.remove_user_from_chat`: fetch the room by id with
`current_user` in the query (so the fetch itself fails with
`NotFoundError("Chat")` unless the user is a member), then remove the user
from the membership and commit; if the membership became empty, hard-delete
the room.  The logged "You don't have chat" branch is kept as the final
`else`. -/
def ChatService.remove_user_from_chat (db : DB) (current_user : User) (room_id : Nat) :
    Except PyErr DB :=
  match ChatService.get_room_by_id db room_id (some current_user) false with
  | .error e => .error e
  | .ok room_db =>
  if room_db.users.any (fun u => u.id == current_user.id) then
    let room1 : ChatRoom := { room_db with users := eraseUserById room_db.users current_user.id }
    let db1 : DB := { db with rooms := db.rooms.map (fun r =>
        if r.id == room_db.id then room1 else r) }
    if room1.users.isEmpty then
      .ok { db1 with rooms := db1.rooms.filter (fun r => r.id != room_db.id) }
    else
      .ok db1
  else
    .ok db

/-- The per-connection session: the `ChatRoom` class of
`src/websocket_chat.py` (named `WsSession` here because `ChatRoom` already
names the persisted room model).  The websocket and db handles are external;
`room` is `None` until `on_connect` completes. -/
structure WsSession where
  current_user : User
  other_user_nickname : String
  room : Option ChatRoom
deriving Repr, DecidableEq

/-- The session constructor: `self.room = None`. -/
def WsSession.init (current_user : User) (other_user_nickname : String) : WsSession :=
  { current_user := current_user, other_user_nickname := other_user_nickname,
    room := none }

/-- An outbound event payload handed to `ws_manager.connection_state`,
mirroring the response dicts built in `websocket_chat.py`. -/
inductive Event where
  | userJoin (room_id : Nat) (user_id : Nat) (user_nickname : String)
      (chat_messages : List (Nat × JVal × Nat))
  | createMessage (room_id : Nat) (user_id : Nat) (user_nickname : String)
      (message_id : Nat) (message_context : JVal)
  | deleteMessage (message_id : JVal)
  | updateMessage (message_id : Nat) (message_context : JVal)
  | userLeave (room_id : Nat) (user_id : Nat) (user_nickname : String)
deriving Repr, DecidableEq

/-- An inbound action message: the `action` tag plus the `content` and
`message_id` fields read by the dispatch branches. -/
structure InMsg where
  action : String
  content : JVal
  message_id : Nat
deriving Repr, DecidableEq

/-- `ChatRoom.on_receive` of `websocket_chat.py`: dispatch on the action tag.
Emitted events are returned as (room id handed to `connection_state`,
payload) pairs; an uncaught Python exception is an `Except.error`, and in
particular on the CREATE branch the response dict evaluates `self.room.id`
and then `new_message.id`, so a `None` room or a `False` upload result
raises `AttributeError` before any event is emitted. -/
def WsSession.on_receive (sess : WsSession) (db : DB) (msg : InMsg) (storeOk : Bool) :
    Except PyErr (List (Nat × Event) × DB) :=
  if msg.action == "CREATE" then
    let res := ChatService.upload_message_to_room db sess.current_user sess.room
      msg.content storeOk
    match sess.room with
    | none => .error .attributeError
    | some rm =>
      match res.1 with
      | .boolFalse => .error .attributeError
      | .msg m =>
        .ok ([(rm.id, .createMessage rm.id sess.current_user.id
                sess.current_user.nickname m.id m.context)], res.2)
  else if msg.action == "DELETE" then
    match MessageService.delete_message db msg.content with
    | .error e => .error e
    | .ok db1 =>
      match sess.room with
      | none => .error .attributeError
      | some rm => .ok ([(rm.id, .deleteMessage msg.content)], db1)
  else if msg.action == "UPDATE" then
    match MessageService.update_message db msg.message_id msg.content with
    | .error e => .error e
    | .ok (m, db1) =>
      match sess.room with
      | none => .error .attributeError
      | some rm => .ok ([(rm.id, .updateMessage m.id m.context)], db1)
  else
    .ok ([], db)

/-- `ChatRoom.on_connect`: reject self-chat with `RuntimeError`, resolve the
room via `get_or_create_room`, cache it on the session, load the backlog and
emit `USER_JOIN`. -/
def WsSession.on_connect (sess : WsSession) (db : DB) :
    Except PyErr (WsSession × List (Nat × Event) × DB) :=
  if sess.current_user.nickname == sess.other_user_nickname then
    .error (.runtimeError "The user can't connect to the room")
  else
    match ChatService.get_or_create_room db sess.current_user sess.other_user_nickname with
    | .error e => .error e
    | .ok (room, db1) =>
      let messages := MessageService.get_all_messages_in_room db1 room.id
      let chat_messages := messages.map (fun m => (m.id, m.context, m.author_id))
      let sess1 : WsSession := { sess with room := some room }
      .ok (sess1,
        [(room.id, .userJoin room.id sess.current_user.id sess.current_user.nickname
            chat_messages)], db1)

/-- `ChatRoom.on_disconnect`: builds the `USER_LEAVE` response, whose first
field access is `self.room.id` — an `AttributeError` when `room` is still
`None`. -/
def WsSession.on_disconnect (sess : WsSession) : Except PyErr (List (Nat × Event)) :=
  match sess.room with
  | none => .error .attributeError
  | some rm =>
    .ok [(rm.id, .userLeave rm.id sess.current_user.id sess.current_user.nickname)]

/-- The externally configured topic names injected into `KafkaService`. -/
structure KafkaConfig where
  confirmation_topic : String
  chat_rooms_topic : String
deriving Repr, DecidableEq

/-- A chat event on the wire: the consumer reads `message["room_id"]` for
routing; the remaining payload is abstracted as `body`. -/
structure WireMsg where
  room_id : Nat
  body : String
deriving Repr, DecidableEq

/-- A record handed to the broker: destination topic plus serialized value. -/
structure KafkaRecord where
  topic : String
  value : WireMsg
deriving Repr, DecidableEq

/-- `KafkaService.send_chat_message_producer`: publishes the message to
`chat_rooms_topic`. -/
def KafkaService.send_chat_message_producer (cfg : KafkaConfig) (message : WireMsg) :
    KafkaRecord :=
  { topic := cfg.chat_rooms_topic, value := message }

/-- The topic `KafkaService.send_chat_message_consumer` subscribes to: the
source passes `confirmation_topic` to `consumer.subscribe`. -/
def KafkaService.send_chat_message_consumer_topic (cfg : KafkaConfig) : String :=
  cfg.confirmation_topic

/-- The events a consumer subscribed to `subscribed` receives from a broker
log: exactly the records published to that topic, in order. -/
def consumerReceives (subscribed : String) (log : List KafkaRecord) : List WireMsg :=
  (log.filter (fun kr => kr.topic == subscribed)).map (fun kr => kr.value)

/-- The `ws_manager.broadcast(room_id, message)` calls made by
`KafkaService.send_chat_message_consumer` over a broker log: one per
received event, keyed by the event's `room_id`. -/
def KafkaService.send_chat_message_consumer_broadcasts (cfg : KafkaConfig)
    (log : List KafkaRecord) : List (Nat × WireMsg) :=
  (consumerReceives (KafkaService.send_chat_message_consumer_topic cfg) log).map
    (fun m => (m.room_id, m))

/-- The number of stored rooms having some member nicknamed `n1` and some
member nicknamed `n2` — the rooms matching the pair query of
`get_room_by_nickname`. -/
def pairRoomCount (db : DB) (n1 n2 : String) : Nat :=
  (db.rooms.filter (fun r =>
    r.users.any (fun u => u.nickname == n1) &&
    r.users.any (fun u => u.nickname == n2))).length

/-- Concrete fixture user. -/
def uAlice : User := ⟨1, "alice"⟩

/-- Concrete fixture user. -/
def uBob : User := ⟨2, "bob"⟩

/-- Concrete fixture user. -/
def uCarol : User := ⟨3, "carol"⟩

/-- Fixture database holding three users and no rooms. -/
def dbUsersOnly : DB := ⟨[uAlice, uBob, uCarol], [], [], 10, 100⟩

/-- Fixture room for the pair alice/bob. -/
def roomAB : ChatRoom := ⟨7, "alice|bob", [uBob, uAlice], true⟩

/-- Fixture database holding the three users and the alice/bob room. -/
def dbWithRoom : DB := ⟨[uAlice, uBob, uCarol], [roomAB], [], 10, 100⟩

theorem string_join_singleton (x : String) : String.join [x] = x := rfl

theorem find?_congr_pred {α : Type} (p q : α → Bool) (l : List α)
    (h : ∀ x, p x = q x) : l.find? p = l.find? q := by
  induction l with
  | nil => rfl
  | cons a t ih =>
    rw [List.find?_cons, List.find?_cons, h a]
    cases q a <;> simp [ih]

theorem get_room_by_nickname_symm (db : DB) (cu1 cu2 : User) (n1 n2 : String)
    (h1 : cu1.nickname = n1) (h2 : cu2.nickname = n2) :
    ChatService.get_room_by_nickname db cu1 n2 =
      ChatService.get_room_by_nickname db cu2 n1 := by
  unfold ChatService.get_room_by_nickname
  apply find?_congr_pred
  intro r
  rw [h1, h2, Bool.and_comm]

/-- C5: viewer-facing label derivation splits the canonical label on the
separator, removes the token equal to the viewer's nickname, and
concatenates what remains: for any room whose canonical label splits into
exactly the two tokens `[a, b]`, viewer `a` gets label `b` and viewer `b`
gets label `a`. -/
theorem extract_nickname_label_symmetry (r : ChatRoom) (u : User) (a b : String)
    (h : pySplit r.room_name '|' = [a, b]) :
    (u.nickname = a → ChatService._extract_nickname r u = .ok { r with room_name := b }) ∧
    (u.nickname = b → ChatService._extract_nickname r u = .ok { r with room_name := a }) := by
  constructor
  · intro ha
    simp only [ChatService._extract_nickname, h, ha]
    simp [string_join_singleton]
  · intro hb
    simp only [ChatService._extract_nickname, h, hb]
    by_cases hab : a = b
    · subst hab
      simp [string_join_singleton]
    · have hab' : (a == b) = false := beq_eq_false_iff_ne.mpr hab
      simp [List.erase_cons, hab', string_join_singleton]

/-- Witness for C5: canonical label "alice|bob" gives viewer alice the label
"bob" and viewer bob the label "alice". -/
theorem extract_nickname_label_symmetry_witness :
    pySplit roomAB.room_name '|' = ["alice", "bob"] ∧
    ChatService._extract_nickname roomAB uAlice = .ok ⟨7, "bob", [uBob, uAlice], true⟩ ∧
    ChatService._extract_nickname roomAB uBob = .ok ⟨7, "alice", [uBob, uAlice], true⟩ :=
  ⟨by decide,
   (extract_nickname_label_symmetry roomAB uAlice "alice" "bob" (by decide)).1 (by decide),
   (extract_nickname_label_symmetry roomAB uBob "alice" "bob" (by decide)).2 (by decide)⟩

/-- C10: when the viewer's nickname does not occur among the split tokens of
the canonical label, `_extract_nickname` fails with `ValueError` (Python
`list.remove` on a missing element) rather than returning a label. -/
theorem extract_nickname_missing_viewer_raises (r : ChatRoom) (u : User)
    (h : ((pySplit r.room_name '|').contains u.nickname) = false) :
    ChatService._extract_nickname r u = .error .valueError := by
  simp only [ChatService._extract_nickname, h]
  simp

/-- Witness for C10 at the concrete room "alice|bob" and viewer "carol". -/
theorem extract_nickname_missing_viewer_raises_witness :
    ((pySplit "alice|bob" '|').contains "carol") = false ∧
    ChatService._extract_nickname ⟨7, "alice|bob", [uBob, uAlice], true⟩ uCarol
      = .error .valueError :=
  ⟨by decide, extract_nickname_missing_viewer_raises _ _ (by decide)⟩

/-- C9: when the session's cached room is still `None` (the connect attempt
was rejected or never ran), `on_disconnect` fails with `AttributeError`
instead of emitting a `USER_LEAVE` event. -/
theorem on_disconnect_null_room_raises (sess : WsSession) (h : sess.room = none) :
    WsSession.on_disconnect sess = .error .attributeError := by
  simp [WsSession.on_disconnect, h]

/-- Witness for C9: a freshly constructed session has `room = None` and its
`on_disconnect` raises `AttributeError`. -/
theorem on_disconnect_null_room_raises_witness :
    (WsSession.init uAlice "bob").room = none ∧
    WsSession.on_disconnect (WsSession.init uAlice "bob") = .error .attributeError :=
  ⟨rfl, on_disconnect_null_room_raises _ rfl⟩

/-- C8: an inbound action whose tag is none of CREATE, UPDATE, DELETE falls
through every dispatch branch of `on_receive`: no event is emitted and the
database is returned unchanged (the session object is never written by
`on_receive` at all). -/
theorem on_receive_unknown_action_no_effect (sess : WsSession) (db : DB)
    (msg : InMsg) (storeOk : Bool) (h1 : msg.action ≠ "CREATE")
    (h2 : msg.action ≠ "UPDATE") (h3 : msg.action ≠ "DELETE") :
    WsSession.on_receive sess db msg storeOk = .ok ([], db) := by
  have b1 : (msg.action == "CREATE") = false := beq_eq_false_iff_ne.mpr h1
  have b2 : (msg.action == "UPDATE") = false := beq_eq_false_iff_ne.mpr h2
  have b3 : (msg.action == "DELETE") = false := beq_eq_false_iff_ne.mpr h3
  simp [WsSession.on_receive, b1, b2, b3]

/-- Witness for C8 at the concrete unrecognized tag "JOIN". -/
theorem on_receive_unknown_action_no_effect_witness :
    ("JOIN" : String) ≠ "CREATE" ∧
    WsSession.on_receive ⟨uAlice, "bob", some roomAB⟩ dbWithRoom ⟨"JOIN", .s "hi", 0⟩ true
      = .ok ([], dbWithRoom) :=
  ⟨by decide,
   on_receive_unknown_action_no_effect _ _ _ _ (by decide) (by decide) (by decide)⟩

/-- C1, evaluated at the failing input: with a forced store failure on a
CREATE action, `upload_message_to_room` does return the `False` signal with
the store unchanged, and no broadcast is emitted — but `on_receive` then
evaluates `new_message.id` on that `False` and raises `AttributeError`, so
the receive loop aborts instead of leaving the session able to process
subsequent actions. -/
theorem on_receive_create_store_failure_raises :
    ChatService.upload_message_to_room dbWithRoom uAlice (some roomAB) (.s "hi") false
      = (.boolFalse, dbWithRoom) ∧
    WsSession.on_receive ⟨uAlice, "bob", some roomAB⟩ dbWithRoom ⟨"CREATE", .s "hi", 0⟩ false
      = .error .attributeError := by
  constructor <;> rfl

/-- C2, evaluated at the failing input: `send_chat_message_consumer`
subscribes to `confirmation_topic`, not `chat_rooms_topic`, so with the two
topics configured distinct a chat event published by
`send_chat_message_producer` is never received and yields no broadcast; an
event that does arrive on the subscribed topic is forwarded to
`broadcast(room_id, event)`. -/
theorem chat_consumer_topic_mismatch :
    KafkaService.send_chat_message_consumer_topic ⟨"confirmation", "chat_rooms"⟩
      ≠ (⟨"confirmation", "chat_rooms"⟩ : KafkaConfig).chat_rooms_topic ∧
    KafkaService.send_chat_message_consumer_broadcasts ⟨"confirmation", "chat_rooms"⟩
      [KafkaService.send_chat_message_producer ⟨"confirmation", "chat_rooms"⟩
        ⟨7, "CREATE_MESSAGE"⟩] = [] ∧
    KafkaService.send_chat_message_consumer_broadcasts ⟨"confirmation", "chat_rooms"⟩
      [⟨"confirmation", ⟨7, "CREATE_MESSAGE"⟩⟩] = [(7, ⟨7, "CREATE_MESSAGE"⟩)] :=
  ⟨by decide, by decide, by decide⟩

/-- C6 counterexample: user carol exists but is not a member of room 7, and
`remove_user_from_chat` fails with `NotFoundError("Chat")` (the
membership-filtered fetch finds no row) instead of being a no-op with a log
entry as the claim states. -/
theorem remove_user_nonmember_raises_counterexample :
    ChatService.remove_user_from_chat dbWithRoom uCarol 7 = .error (.notFound "Chat") ∧
    ChatService.remove_user_from_chat dbWithRoom uCarol 7 ≠ .ok dbWithRoom :=
  ⟨by decide, by decide⟩

/-- C6 amended: for a member, `remove_user_from_chat` removes the user from
the membership and hard-deletes the room exactly when the membership becomes
empty after the removal (a two-member room with one member removed retains
one member and is not deleted); for a user who is not a member, the
membership-filtered room fetch itself raises `NotFoundError("Chat")`, so the
logged no-op branch is unreachable. -/
theorem remove_user_from_chat_amended (us : List User) (ms : List ChatMessage)
    (u1 u2 w : User) (rid nr nm : Nat) (name : String) (act : Bool)
    (h12 : u1.id ≠ u2.id) (hw1 : w.id ≠ u1.id) (hw2 : w.id ≠ u2.id) :
    ChatService.remove_user_from_chat ⟨us, [⟨rid, name, [u1, u2], act⟩], ms, nr, nm⟩ u1 rid
      = .ok ⟨us, [⟨rid, name, [u2], act⟩], ms, nr, nm⟩ ∧
    ChatService.remove_user_from_chat ⟨us, [⟨rid, name, [u2], act⟩], ms, nr, nm⟩ u2 rid
      = .ok ⟨us, [], ms, nr, nm⟩ ∧
    ChatService.remove_user_from_chat ⟨us, [⟨rid, name, [u1, u2], act⟩], ms, nr, nm⟩ w rid
      = .error (.notFound "Chat") := by
  have bw1 : (u1.id == w.id) = false := beq_eq_false_iff_ne.mpr (Ne.symm hw1)
  have bw2 : (u2.id == w.id) = false := beq_eq_false_iff_ne.mpr (Ne.symm hw2)
  have b21 : (u2.id == u1.id) = false := beq_eq_false_iff_ne.mpr (Ne.symm h12)
  refine ⟨?_, ?_, ?_⟩ <;>
    simp [ChatService.remove_user_from_chat, ChatService.get_room_by_id,
      eraseUserById, bw1, bw2, b21]

/-- Witness for C6 amended, at the concrete alice/bob room with outsider
carol. -/
theorem remove_user_from_chat_amended_witness :
    uAlice.id ≠ uBob.id ∧
    (ChatService.remove_user_from_chat
        ⟨[uAlice, uBob, uCarol], [⟨7, "alice|bob", [uAlice, uBob], true⟩], [], 10, 100⟩
        uAlice 7
      = .ok ⟨[uAlice, uBob, uCarol], [⟨7, "alice|bob", [uBob], true⟩], [], 10, 100⟩ ∧
     ChatService.remove_user_from_chat
        ⟨[uAlice, uBob, uCarol], [⟨7, "alice|bob", [uBob], true⟩], [], 10, 100⟩
        uBob 7
      = .ok ⟨[uAlice, uBob, uCarol], [], [], 10, 100⟩ ∧
     ChatService.remove_user_from_chat
        ⟨[uAlice, uBob, uCarol], [⟨7, "alice|bob", [uAlice, uBob], true⟩], [], 10, 100⟩
        uCarol 7
      = .error (.notFound "Chat")) :=
  ⟨by decide,
   remove_user_from_chat_amended [uAlice, uBob, uCarol] [] uAlice uBob uCarol 7 10 100
     "alice|bob" true (by decide) (by decide) (by decide)⟩

/-- C7: for every existing room, `set_room_activity` never raises while
flipping the active flag: a persistence failure (`storeOk = false`) is
swallowed, the room's active state and the table simply remain unchanged,
and the method still returns the (possibly unmodified) current room. -/
theorem set_room_activity_never_raises (db : DB) (room_id : Nat)
    (flag storeOk : Bool) (r : ChatRoom)
    (h : db.rooms.find? (fun x => x.id == room_id) = some r) :
    ChatService.set_room_activity db room_id flag storeOk =
      .ok (if storeOk then { r with active := flag } else r,
        if storeOk then
          { db with rooms := db.rooms.map (fun x =>
              if x.id == room_id then { x with active := flag } else x) }
        else db) := by
  have hr : r.id = room_id := by
    have := List.find?_some h
    simpa using this
  cases storeOk with
  | false =>
    simp [ChatService.set_room_activity, ChatService.get_room_by_id, h]
  | true =>
    have hmap : (db.rooms.map (fun x =>
        if x.id == room_id then { x with active := flag } else x)).find?
        (fun x => x.id == room_id) = some { r with active := flag } := by
      rw [List.find?_map]
      have hcomp : ((fun x : ChatRoom => x.id == room_id) ∘
          (fun x => if x.id == room_id then { x with active := flag } else x))
          = fun x : ChatRoom => x.id == room_id := by
        funext x
        by_cases hx : (x.id == room_id) = true
        · simp [Function.comp, hx]
        · simp [Function.comp, hx]
      rw [hcomp, h]
      simp [hr]
    simp only [ChatService.set_room_activity, ChatService.get_room_by_id, h, if_true, hmap]

/-- Witness for C7 at the concrete room 7 with a forced store failure: the
call succeeds and returns the unmodified room and table. -/
theorem set_room_activity_never_raises_witness :
    dbWithRoom.rooms.find? (fun x => x.id == 7) = some roomAB ∧
    ChatService.set_room_activity dbWithRoom 7 false false = .ok (roomAB, dbWithRoom) := by
  refine ⟨by decide, ?_⟩
  have := set_room_activity_never_raises dbWithRoom 7 false false roomAB (by decide)
  simpa using this

/-- C3 counterexample: creating the alice/bob room via `insert_room` with no
prior room re-fetches it with `filter_result = False`, so the returned room
carries the canonical label "alice|bob" — not the viewer-facing label "bob"
the claim requires for the requester alice. -/
theorem insert_room_created_label_counterexample :
    (ChatService.insert_room dbUsersOnly uAlice "bob").map (fun p => p.1.room_name)
      = .ok "alice|bob" ∧
    ("alice|bob" : String) ≠ "bob" :=
  ⟨by decide, by decide⟩

/-- C3 amended: the viewer-facing label is applied only on `insert_room`'s
found-existing branch; the re-fetch after creation passes
`filter_result = False` and returns the canonical label
"<requester.nickname>|<peer.nickname>" unapplied, and `get_or_create_room`'s
found branch likewise returns the stored room with its canonical label
unmodified. -/
theorem resolve_or_create_label_amended (uA uB : User) (ms : List ChatMessage)
    (nr nm : Nat) (b : String) (hb : uB.nickname = b) (hne : uA.nickname ≠ b)
    (hsplit : pySplit (uA.nickname ++ "|" ++ b) '|' = [uA.nickname, b]) :
    ∃ r1 db1,
      ChatService.insert_room ⟨[uA, uB], [], ms, nr, nm⟩ uA b = .ok (r1, db1) ∧
      r1.room_name = uA.nickname ++ "|" ++ b ∧ r1.id = nr ∧
      (∃ r2, ChatService.get_or_create_room db1 uA b = .ok (r2, db1) ∧
        r2.room_name = uA.nickname ++ "|" ++ b ∧ r2.id = nr) ∧
      (∃ r3, ChatService.insert_room db1 uA b = .ok (r3, db1) ∧
        r3.room_name = b ∧ r3.id = nr) := by
  have bne : (uA.nickname == b) = false := beq_eq_false_iff_ne.mpr hne
  have bb : (uB.nickname == b) = true := by simp [hb]
  refine ⟨⟨nr, uA.nickname ++ "|" ++ b, [uB, uA], true⟩,
    ⟨[uA, uB], [⟨nr, uA.nickname ++ "|" ++ b, [uB, uA], true⟩], ms, nr + 1, nm⟩,
    ?_, rfl, rfl,
    ⟨⟨nr, uA.nickname ++ "|" ++ b, [uB, uA], true⟩, ?_, rfl, rfl⟩,
    ⟨⟨nr, b, [uB, uA], true⟩, ?_, rfl, rfl⟩⟩
  · simp [ChatService.insert_room, UserService.get_user_by_nickname,
      ChatService.get_room_by_nickname, ChatService.get_room_by_id, bne, bb]
  · simp [ChatService.get_or_create_room, UserService.get_user_by_field,
      ChatService.get_room_by_nickname, bne, bb]
  · simp [ChatService.insert_room, UserService.get_user_by_nickname,
      ChatService.get_room_by_nickname, ChatService._extract_nickname,
      bne, bb, hsplit, string_join_singleton]

/-- Witness for C3 amended at the concrete users alice and bob. -/
theorem resolve_or_create_label_amended_witness :
    uAlice.nickname ≠ "bob" ∧
    (∃ r1 db1,
      ChatService.insert_room ⟨[uAlice, uBob], [], [], 10, 100⟩ uAlice "bob"
        = .ok (r1, db1) ∧
      r1.room_name = uAlice.nickname ++ "|" ++ "bob" ∧ r1.id = 10 ∧
      (∃ r2, ChatService.get_or_create_room db1 uAlice "bob" = .ok (r2, db1) ∧
        r2.room_name = uAlice.nickname ++ "|" ++ "bob" ∧ r2.id = 10) ∧
      (∃ r3, ChatService.insert_room db1 uAlice "bob" = .ok (r3, db1) ∧
        r3.room_name = "bob" ∧ r3.id = 10)) :=
  ⟨by decide,
   resolve_or_create_label_amended uAlice uBob [] 10 100 "bob"
     (by decide) (by decide) (by decide)⟩

/-- C4: starting from a database whose peer lookup succeeds, whose room-id
counter is fresh, and which holds at most one room for the pair,
`get_or_create_room(A, B)` followed by `get_or_create_room(A, B)` again — or
by the symmetric `get_or_create_room(B, A)` — returns the same room id each
time and leaves the database unchanged after the first call, at most one
room exists for the pair afterwards, and `get_room_by_nickname` finds the
same result from either direction of the pair. -/
theorem get_or_create_room_idempotent (db : DB) (uA uB : User) (b : String)
    (hub : db.users.find? (fun u => u.nickname == b) = some uB)
    (hua : (db.users.find? (fun u => u.nickname == uA.nickname)).isSome = true)
    (hfresh : ∀ r ∈ db.rooms, r.id ≠ db.nextRoomId)
    (hcount : pairRoomCount db b uA.nickname ≤ 1) :
    ∃ r1 db1 r2 r3,
      ChatService.get_or_create_room db uA b = .ok (r1, db1) ∧
      ChatService.get_or_create_room db1 uA b = .ok (r2, db1) ∧
      ChatService.get_or_create_room db1 uB uA.nickname = .ok (r3, db1) ∧
      r2.id = r1.id ∧ r3.id = r1.id ∧
      pairRoomCount db1 b uA.nickname ≤ 1 ∧
      ChatService.get_room_by_nickname db1 uA b =
        ChatService.get_room_by_nickname db1 uB uA.nickname := by
  have hbnick : uB.nickname = b := by
    have := List.find?_some hub
    simpa using this
  obtain ⟨uA2, hua2⟩ := Option.isSome_iff_exists.mp hua
  have hsymm : ∀ d : DB, ChatService.get_room_by_nickname d uA b =
      ChatService.get_room_by_nickname d uB uA.nickname :=
    fun d => get_room_by_nickname_symm d uA uB uA.nickname b rfl hbnick
  cases hroom : ChatService.get_room_by_nickname db uA b with
  | some r =>
    refine ⟨r, db, r, r, ?_, ?_, ?_, rfl, rfl, hcount, hsymm db⟩
    · simp [ChatService.get_or_create_room, UserService.get_user_by_field, hub, hroom]
    · simp [ChatService.get_or_create_room, UserService.get_user_by_field, hub, hroom]
    · have hsw : ChatService.get_room_by_nickname db uB uA.nickname = some r := by
        rw [← hsymm db]; exact hroom
      simp [ChatService.get_or_create_room, UserService.get_user_by_field, hua2, hsw]
  | none =>
    have hroomfind : db.rooms.find? (fun r =>
        r.users.any (fun u => u.nickname == b) &&
        r.users.any (fun u => u.nickname == uA.nickname)) = none := hroom
    have hnone2 : db.rooms.find? (fun x =>
        x.users.any (fun u => u.id == uA.id) && x.id == db.nextRoomId) = none := by
      rw [List.find?_eq_none]
      intro x hx
      simp only [Bool.and_eq_true, beq_iff_eq]
      rintro ⟨-, h2⟩
      exact hfresh x hx h2
    have happend : (db.rooms ++
        [(⟨db.nextRoomId, uA.nickname ++ "|" ++ b, [uB, uA], true⟩ : ChatRoom)]).find?
        (fun x => x.users.any (fun u => u.id == uA.id) && x.id == db.nextRoomId)
        = some ⟨db.nextRoomId, uA.nickname ++ "|" ++ b, [uB, uA], true⟩ := by
      rw [List.find?_append, hnone2]
      simp
    have hpairfind : (db.rooms ++
        [(⟨db.nextRoomId, uA.nickname ++ "|" ++ b, [uB, uA], true⟩ : ChatRoom)]).find?
        (fun r => r.users.any (fun u => u.nickname == b) &&
          r.users.any (fun u => u.nickname == uA.nickname))
        = some ⟨db.nextRoomId, uA.nickname ++ "|" ++ b, [uB, uA], true⟩ := by
      rw [List.find?_append, hroomfind]
      simp [hbnick]
    have hlookup2 : ChatService.get_room_by_nickname
        (⟨db.users, db.rooms ++ [⟨db.nextRoomId, uA.nickname ++ "|" ++ b, [uB, uA], true⟩],
          db.messages, db.nextRoomId + 1, db.nextMessageId⟩ : DB) uA b
        = some ⟨db.nextRoomId, uA.nickname ++ "|" ++ b, [uB, uA], true⟩ := hpairfind
    refine ⟨⟨db.nextRoomId, uA.nickname ++ "|" ++ b, [uB, uA], true⟩,
      ⟨db.users, db.rooms ++ [⟨db.nextRoomId, uA.nickname ++ "|" ++ b, [uB, uA], true⟩],
        db.messages, db.nextRoomId + 1, db.nextMessageId⟩,
      ⟨db.nextRoomId, uA.nickname ++ "|" ++ b, [uB, uA], true⟩,
      ⟨db.nextRoomId, uA.nickname ++ "|" ++ b, [uB, uA], true⟩,
      ?_, ?_, ?_, rfl, rfl, ?_, hsymm _⟩
    · simp only [ChatService.get_or_create_room, UserService.get_user_by_field, hub,
        hroom, ChatService.get_room_by_id, happend]
      simp
    · simp only [ChatService.get_or_create_room, UserService.get_user_by_field]
      rw [show (⟨db.users, db.rooms ++
          [⟨db.nextRoomId, uA.nickname ++ "|" ++ b, [uB, uA], true⟩],
          db.messages, db.nextRoomId + 1, db.nextMessageId⟩ : DB).users = db.users from rfl,
        hub, hlookup2]
    · have hsw2 : ChatService.get_room_by_nickname
          (⟨db.users, db.rooms ++ [⟨db.nextRoomId, uA.nickname ++ "|" ++ b, [uB, uA], true⟩],
            db.messages, db.nextRoomId + 1, db.nextMessageId⟩ : DB) uB uA.nickname
          = some ⟨db.nextRoomId, uA.nickname ++ "|" ++ b, [uB, uA], true⟩ := by
        rw [← hsymm _]; exact hlookup2
      simp only [ChatService.get_or_create_room, UserService.get_user_by_field]
      rw [show (⟨db.users, db.rooms ++
          [⟨db.nextRoomId, uA.nickname ++ "|" ++ b, [uB, uA], true⟩],
          db.messages, db.nextRoomId + 1, db.nextMessageId⟩ : DB).users = db.users from rfl,
        hua2, hsw2]
    · show pairRoomCount _ b uA.nickname ≤ 1
      unfold pairRoomCount
      have hfilter : db.rooms.filter (fun r =>
          r.users.any (fun u => u.nickname == b) &&
          r.users.any (fun u => u.nickname == uA.nickname)) = [] :=
        List.filter_eq_nil_iff.mpr (List.find?_eq_none.mp hroomfind)
      rw [show (⟨db.users, db.rooms ++
          [⟨db.nextRoomId, uA.nickname ++ "|" ++ b, [uB, uA], true⟩],
          db.messages, db.nextRoomId + 1, db.nextMessageId⟩ : DB).rooms = db.rooms ++
          [⟨db.nextRoomId, uA.nickname ++ "|" ++ b, [uB, uA], true⟩] from rfl,
        List.filter_append, hfilter]
      simp [hbnick]

/-- Witness for C4: in the three-user fixture database with no rooms, two
calls for the alice/bob pair and the symmetric bob/alice call all return the
same room id and leave a single room for the pair. -/
theorem get_or_create_room_idempotent_witness :
    dbUsersOnly.users.find? (fun u => u.nickname == "bob") = some uBob ∧
    (∃ r1 db1 r2 r3,
      ChatService.get_or_create_room dbUsersOnly uAlice "bob" = .ok (r1, db1) ∧
      ChatService.get_or_create_room db1 uAlice "bob" = .ok (r2, db1) ∧
      ChatService.get_or_create_room db1 uBob uAlice.nickname = .ok (r3, db1) ∧
      r2.id = r1.id ∧ r3.id = r1.id ∧
      pairRoomCount db1 "bob" uAlice.nickname ≤ 1 ∧
      ChatService.get_room_by_nickname db1 uAlice "bob" =
        ChatService.get_room_by_nickname db1 uBob uAlice.nickname) :=
  ⟨by decide,
   get_or_create_room_idempotent dbUsersOnly uAlice uBob "bob"
     (by decide) (by decide) (by decide) (by decide)⟩
